import Mathlib

/-!
# Verification of the asyncx task-lifecycle layer

A shallow embedding, in Lean 4, of the Go package asyncx: a thin layer over
the asynq task queue that persists task lifecycle metadata in a relational
database.  The embedding follows the source files:

* `asyncx/types.go`   — `Status`, `TaskRecord`
* `asyncx/store.go`   — `SQLStore` with the dual-placeholder-dialect retry
* `client.go`         — `Client.Enqueue`
* `processor.go`      — `Processor.lifecycleMiddleware`

Timestamps are modelled as natural numbers; `time.Now().UTC()` becomes an
explicit `now : Time` parameter, and the external database, queue broker and
payload serializer become explicit oracle parameters.
-/

namespace Asyncx

/-- Model of Go `time.Time`; the zero value of `time.Time` is `0`. -/
abbrev Time := Nat

/-- `types.go`: `type Status string` — kept as a string, exactly as in Go. -/
abbrev Status := String

/-- `types.go`: `StatusCreated Status = "created"`. -/
def StatusCreated : Status := "created"

/-- `types.go`: `StatusInProgress Status = "in_progress"`. -/
def StatusInProgress : Status := "in_progress"

/-- `types.go`: `StatusCompleted Status = "completed"`. -/
def StatusCompleted : Status := "completed"

/-- `types.go`: `StatusFailed Status = "failed"`. -/
def StatusFailed : Status := "failed"

/-- `types.go`: `TaskRecord` — the persisted representation of a task
lifecycle.  Go pointer fields (`*string`, `*time.Time`) become `Option`;
`Typ` stands for the Go field `Type` (a reserved word in Lean). -/
structure TaskRecord where
  ID : String
  Typ : String
  Queue : String
  PayloadJSON : String
  status : Status
  ErrorMsg : Option String
  ResultJSON : Option String
  CreatedAt : Time
  EnqueuedAt : Time
  StartedAt : Option Time
  FinishedAt : Option Time
  deriving Repr, DecidableEq

/-! ## The external relational database

`SQLStore` issues parametrized statements through `database/sql`.  The engine
behind the driver is unknown at compile time and accepts exactly one
placeholder dialect: positional `?` (MySQL/SQLite) or numbered `$n`
(Postgres).  We model the engine as a table of rows (the `asyncx_tasks`
schema from `migrations/001_create_tasks.sql`) tagged with the dialect it
accepts; a statement issued in the wrong dialect fails with a syntax error,
which is precisely the situation the blind-retry pattern of the store
exists for. -/

/-- Placeholder dialect accepted by the concrete database engine. -/
inductive Dialect where
  | qmark
  | dollar
  deriving Repr, DecidableEq

/-- One row of the `asyncx_tasks` table (`migrations/001_create_tasks.sql`).
Nullable columns are `Option`. -/
structure Row where
  id : String
  typ : String
  queue : String
  payload_json : String
  status : String
  error_msg : Option String
  result_json : Option String
  created_at : Time
  updated_at : Option Time
  enqueued_at : Option Time
  started_at : Option Time
  finished_at : Option Time
  deriving Repr, DecidableEq

/-- The external database reached through a non-nil `*sql.DB` handle:
the dialect its engine accepts, and the `asyncx_tasks` table contents. -/
structure DBState where
  dialect : Dialect
  table : List Row
  deriving Repr, DecidableEq

/-- `INSERT INTO asyncx_tasks ... VALUES (...)` as executed by the engine:
fails when issued in the wrong placeholder dialect, fails on a duplicate
primary key (`id`), otherwise appends the row. -/
def execInsert (d : DBState) (style : Dialect) (r : Row) : Except String DBState :=
  if style ≠ d.dialect then
    .error "syntax error: unsupported placeholder style"
  else if d.table.any (fun r0 => r0.id = r.id) then
    .error "duplicate key value violates primary key"
  else
    .ok { d with table := d.table ++ [r] }

/-- `UPDATE asyncx_tasks SET ... WHERE id = taskID` as executed by the
engine: fails in the wrong dialect, otherwise rewrites every row whose `id`
matches (matching zero rows is still a successful statement). -/
def execUpdate (d : DBState) (style : Dialect) (taskID : String) (f : Row → Row) :
    Except String DBState :=
  if style ≠ d.dialect then
    .error "syntax error: unsupported placeholder style"
  else
    .ok { d with table := d.table.map (fun r => if r.id = taskID then f r else r) }

/-- `SELECT ... FROM asyncx_tasks WHERE id = taskID` followed by
`Row.Scan`: fails in the wrong dialect, fails with `sql.ErrNoRows` when no
row matches, otherwise yields the matching row. -/
def execQueryRow (d : DBState) (style : Dialect) (taskID : String) : Except String Row :=
  if style ≠ d.dialect then
    .error "syntax error: unsupported placeholder style"
  else
    match d.table.find? (fun r => r.id = taskID) with
    | none => .error "sql: no rows in result set"
    | some r => .ok r

/-! ## `store.go`: SQLStore

Each operation takes the `*sql.DB` handle as `Option DBState` (`none` is a
nil handle) and the ambient clock as `now : Time` (for `time.Now().UTC()` on
the Go side and `CURRENT_TIMESTAMP` / `NOW()` on the SQL side).  A failed
statement leaves the database unchanged, so mutating operations return
`Except String DBState`. -/

namespace SQLStore

/-- The row written by the `InsertCreated` statement of `store.go`:
`(rec.ID, rec.Type, rec.Queue, rec.PayloadJSON, string(StatusCreated),
time.Now().UTC())` — the `status` and `created_at` columns come from the
constant `StatusCreated` and the clock, not from `rec`. -/
def insertRow (now : Time) (rec : TaskRecord) : Row :=
  { id := rec.ID, typ := rec.Typ, queue := rec.Queue,
    payload_json := rec.PayloadJSON, status := StatusCreated,
    error_msg := none, result_json := none,
    created_at := now, updated_at := none, enqueued_at := none,
    started_at := none, finished_at := none }

/-- `store.go` `InsertCreated`: nil-db guard; then the INSERT with `?`
placeholders, retried with `$n` placeholders on any failure, surfacing the
outcome of the second attempt. -/
def InsertCreated (db : Option DBState) (now : Time) (rec : TaskRecord) :
    Except String DBState :=
  match db with
  | none => .error "nil db"
  | some d =>
    match execInsert d .qmark (insertRow now rec) with
    | .ok d2 => .ok d2
    | .error _ => execInsert d .dollar (insertRow now rec)

/-- The SET clause of `MarkEnqueued`:
`status = created, queue = ?, enqueued_at = ?, updated_at = now`. -/
def enqueueUpd (queue : String) (enqueuedAt now : Time) (r : Row) : Row :=
  { r with status := StatusCreated, queue := queue,
           enqueued_at := some enqueuedAt, updated_at := some now }

/-- `store.go` `MarkEnqueued`: nil-db guard; then the UPDATE keyed by id
with `?` placeholders, retried once with `$n` placeholders. -/
def MarkEnqueued (db : Option DBState) (now : Time) (taskID : String)
    (queue : String) (enqueuedAt : Time) : Except String DBState :=
  match db with
  | none => .error "nil db"
  | some d =>
    match execUpdate d .qmark taskID (enqueueUpd queue enqueuedAt now) with
    | .ok d2 => .ok d2
    | .error _ => execUpdate d .dollar taskID (enqueueUpd queue enqueuedAt now)

/-- The SET clause of `MarkStarted`:
`status = in_progress, started_at = ?, updated_at = now`. -/
def startUpd (startedAt now : Time) (r : Row) : Row :=
  { r with status := StatusInProgress, started_at := some startedAt,
           updated_at := some now }

/-- `store.go` `MarkStarted`: UPDATE keyed by id, `?` then `$n`. -/
def MarkStarted (db : Option DBState) (now : Time) (taskID : String)
    (startedAt : Time) : Except String DBState :=
  match db with
  | none => .error "nil db"
  | some d =>
    match execUpdate d .qmark taskID (startUpd startedAt now) with
    | .ok d2 => .ok d2
    | .error _ => execUpdate d .dollar taskID (startUpd startedAt now)

/-- The SET clause of `MarkCompleted`:
`status = completed, result_json = ?, finished_at = ?, updated_at = now`. -/
def completeUpd (resultJSON : Option String) (finishedAt now : Time) (r : Row) : Row :=
  { r with status := StatusCompleted, result_json := resultJSON,
           finished_at := some finishedAt, updated_at := some now }

/-- `store.go` `MarkCompleted`: UPDATE keyed by id, `?` then `$n`. -/
def MarkCompleted (db : Option DBState) (now : Time) (taskID : String)
    (resultJSON : Option String) (finishedAt : Time) : Except String DBState :=
  match db with
  | none => .error "nil db"
  | some d =>
    match execUpdate d .qmark taskID (completeUpd resultJSON finishedAt now) with
    | .ok d2 => .ok d2
    | .error _ => execUpdate d .dollar taskID (completeUpd resultJSON finishedAt now)

/-- The SET clause of `MarkFailed`:
`status = failed, error_msg = ?, finished_at = ?, updated_at = now`. -/
def failUpd (errorMsg : String) (finishedAt now : Time) (r : Row) : Row :=
  { r with status := StatusFailed, error_msg := some errorMsg,
           finished_at := some finishedAt, updated_at := some now }

/-- `store.go` `MarkFailed`: UPDATE keyed by id, `?` then `$n`. -/
def MarkFailed (db : Option DBState) (now : Time) (taskID : String)
    (errorMsg : String) (finishedAt : Time) : Except String DBState :=
  match db with
  | none => .error "nil db"
  | some d =>
    match execUpdate d .qmark taskID (failUpd errorMsg finishedAt now) with
    | .ok d2 => .ok d2
    | .error _ => execUpdate d .dollar taskID (failUpd errorMsg finishedAt now)

/-- The scan mapping of `GetByID` in `store.go`: nullable columns land in
the `Option` fields; a NULL `enqueued_at` leaves `EnqueuedAt` at the
`time.Time` zero value; `rec.Status = Status(status)` is the identity on
strings. -/
def rowToRecord (r : Row) : TaskRecord :=
  { ID := r.id, Typ := r.typ, Queue := r.queue, PayloadJSON := r.payload_json,
    status := r.status, ErrorMsg := r.error_msg, ResultJSON := r.result_json,
    CreatedAt := r.created_at, EnqueuedAt := r.enqueued_at.getD 0,
    StartedAt := r.started_at, FinishedAt := r.finished_at }

/-- `store.go` `GetByID`: nil-db guard returning `(nil, error)`; then the
SELECT with `?` and scan, retried with `$1` on any failure, surfacing the
error of the second attempt. -/
def GetByID (db : Option DBState) (taskID : String) : Except String TaskRecord :=
  match db with
  | none => .error "nil db"
  | some d =>
    match execQueryRow d .qmark taskID with
    | .ok r => .ok (rowToRecord r)
    | .error _ =>
      match execQueryRow d .dollar taskID with
      | .ok r => .ok (rowToRecord r)
      | .error e2 => .error e2

end SQLStore

/-! ## The external queue collaborator (asynq)

`client.go` submits through `asynq.Client.EnqueueContext(ctx, task, opts...)`.
asynq composes the option slice in order; for queue-selecting options the
last `asynq.Queue` in the slice takes precedence, and the default queue when
none is given is `"default"`.  The broker itself (id assignment, possible
rejection) is an oracle. -/

/-- An asynq submission option: either a queue-selecting option
(`asynq.Queue name`) or any other option, opaque to queue selection. -/
inductive AsynqOption where
  | queue (name : String)
  | other (tag : Nat)
  deriving Repr, DecidableEq

/-- The asynq option composition restricted to queue selection: options are
processed in slice order and each `Queue` option overwrites the previous
choice, starting from the asynq default queue name `"default"`. -/
def composeQueue (opts : List AsynqOption) : String :=
  opts.foldl
    (fun acc o =>
      match o with
      | .queue q => q
      | .other _ => acc)
    "default"

/-- The `*asynq.TaskInfo` fields read by `Client.Enqueue`: the assigned
task id and the queue the task was placed on. -/
structure TaskInfo where
  ID : String
  Queue : String
  deriving Repr, DecidableEq

/-- The external broker: given task type, payload bytes, and the effective
queue, either assigns a task id or rejects the submission. -/
structure Broker where
  submit : String → String → String → Except String String

/-! ## The abstract Store port

`Client` and `Processor` talk to the `Store` interface of `store.go`, not to
`SQLStore` specifically.  `σ` is the state of the implementation; each
operation returns the new state together with its error outcome, which the
callers in `client.go` and `processor.go` discard with `_ =`. -/

/-- The `Store` interface of `store.go`, over implementation state `σ`. -/
structure StoreModel (σ : Type) where
  insertCreated : σ → TaskRecord → σ × Except String Unit
  markEnqueued : σ → String → String → Time → σ × Except String Unit
  markStarted : σ → String → Time → σ × Except String Unit
  markCompleted : σ → String → Option String → Time → σ × Except String Unit
  markFailed : σ → String → String → Time → σ × Except String Unit

/-! ## `client.go`: Client -/

/-- `client.go` `Client`: the asynq producer handle (modelled by whether it
is non-nil), the optional Store, and the configured queue name. -/
structure Client (σ : Type) where
  client : Bool
  store : Option (StoreModel σ)
  queue : String

/-- `client.go` `NewClient`: an empty `ClientOptions.Queue` falls back to
`"default"`. -/
def NewClient (σ : Type) (store : Option (StoreModel σ)) (optsQueue : String) :
    Client σ :=
  { client := true, store := store,
    queue := if optsQueue = "" then "default" else optsQueue }

/-- `client.go` `Client.Enqueue`.  `marshal` is the outcome of
`json.Marshal(payload)`; `now` stands for each `time.Now().UTC()` call.
The submission options are `append(options, asynq.Queue(c.queue))`: the
configured queue option of the client is appended AFTER the options of the
caller.  On broker success a record is synthesized from `info` and, when the
store is non-nil, `InsertCreated` then `MarkEnqueued` are invoked with their
results discarded.  Returns the Go `(info, err)` pair and the resulting
store state. -/
def Client.Enqueue {σ : Type} (c : Client σ) (b : Broker) (st : σ) (now : Time)
    (taskType : String) (marshal : Except String String)
    (options : List AsynqOption) : Except String TaskInfo × σ :=
  if c.client = false then
    (.error "nil asynq client", st)
  else
    match marshal with
    | .error e => (.error e, st)
    | .ok payloadBytes =>
      let effQueue := composeQueue (options ++ [.queue c.queue])
      match b.submit taskType payloadBytes effQueue with
      | .error e => (.error e, st)
      | .ok tid =>
        let info : TaskInfo := { ID := tid, Queue := effQueue }
        let rec0 : TaskRecord :=
          { ID := info.ID, Typ := taskType, Queue := info.Queue,
            PayloadJSON := payloadBytes, status := StatusCreated,
            ErrorMsg := none, ResultJSON := none,
            CreatedAt := now, EnqueuedAt := now,
            StartedAt := none, FinishedAt := none }
        match c.store with
        | none => (.ok info, st)
        | some s =>
          let st1 := (s.insertCreated st rec0).1
          let st2 := (s.markEnqueued st1 info.ID info.Queue now).1
          (.ok info, st2)

/-- The dual-dialect blind-retry combinator implicit in every `SQLStore`
operation: take the result of the first attempt if it succeeded, otherwise
the result of the second attempt (so the error surfaced is always from the
second attempt). -/
def attemptTwice {α : Type} (first second : Except String α) : Except String α :=
  match first with
  | .ok v => .ok v
  | .error _ => second

/-! ## `processor.go`: lifecycle middleware -/

/-- `processor.go` `Processor.lifecycleMiddleware`, applied to one dispatched
task.  `store?` is the store field of the Processor (`nil` allowed); `id?`
is the result of `asynq.GetTaskID(ctx)`; `handler` is the wrapped real
handler as a state transformer returning `some msg` for an error with
message `msg` and `none` for success; `now1` / `now2` are the two
`time.Now().UTC()` calls.  Returns the final store state and the outcome of
the handler, which the wrapper passes through unmodified. -/
def lifecycleMiddleware {σ : Type} (store? : Option (StoreModel σ))
    (id? : Option String) (now1 now2 : Time)
    (handler : σ → σ × Option String) (st : σ) : σ × Option String :=
  let st1 :=
    match store?, id? with
    | some s, some id => (s.markStarted st id now1).1
    | _, _ => st
  let hres := handler st1
  let st2 := hres.1
  let err := hres.2
  let st3 :=
    match store?, id? with
    | some s, some id =>
      match err with
      | some msg => (s.markFailed st2 id msg now2).1
      | none => (s.markCompleted st2 id none now2).1
    | _, _ => st2
  (st3, err)

/-! ## Helper lemmas -/

/-- A list update touching only rows with a given id leaves a table with no
such row unchanged. -/
theorem map_update_of_no_match {taskID : String} {f : Row → Row} :
    ∀ {l : List Row}, (∀ r ∈ l, ¬ r.id = taskID) →
      l.map (fun r => if r.id = taskID then f r else r) = l := by
  intro l
  induction l with
  | nil => intro _; rfl
  | cons x t ih =>
    intro h
    simp only [List.map_cons]
    rw [if_neg (h x (List.mem_cons_self x t))]
    rw [ih (fun r hr => h r (List.mem_cons_of_mem x hr))]

/-- `find?` skips a prefix none of whose elements satisfy the predicate. -/
theorem find_append_no_match {α : Type} (p : α → Bool) :
    ∀ (l : List α), (∀ x ∈ l, p x = false) →
      ∀ xs, List.find? p (l ++ xs) = List.find? p xs := by
  intro l
  induction l with
  | nil => intro _ xs; rfl
  | cons a t ih =>
    intro h xs
    rw [List.cons_append,
        List.find?_cons_of_neg _ (by simp [h a (List.mem_cons_self a t)]),
        ih (fun x hx => h x (List.mem_cons_of_mem a hx)) xs]

/-- `find?` through a keyed update: if a row with the key is found, after
updating all rows with that key the updated row is found (for updates that
preserve the key). -/
theorem find_map_update (taskID : String) (f : Row → Row)
    (hid : ∀ r, (f r).id = r.id) :
    ∀ (l : List Row) (r0 : Row),
      l.find? (fun r => r.id = taskID) = some r0 →
      (l.map (fun r => if r.id = taskID then f r else r)).find?
        (fun r => r.id = taskID) = some (f r0) := by
  intro l
  induction l with
  | nil => intro r0 h; exact absurd h (by simp)
  | cons x t ih =>
    intro r0 h
    by_cases hx : x.id = taskID
    · rw [List.find?_cons_of_pos _ (by simp [hx])] at h
      injection h with h
      subst h
      simp only [List.map_cons, if_pos hx]
      exact List.find?_cons_of_pos _ (by simp [hid, hx])
    · rw [List.find?_cons_of_neg _ (by simp [hx])] at h
      simp only [List.map_cons, if_neg hx]
      rw [List.find?_cons_of_neg _ (by simp [hx])]
      exact ih r0 h

/-! ## Evaluation lemmas for the SQLStore operations -/

/-- `InsertCreated` on a live database succeeds only when the id is not
already present, and then appends the insert row. -/
theorem insertCreated_some_ok {d d2 : DBState} {now : Time} {rec : TaskRecord}
    (hok : SQLStore.InsertCreated (some d) now rec = .ok d2) :
    (∀ r ∈ d.table, ¬ r.id = rec.ID) ∧
    d2 = { d with table := d.table ++ [SQLStore.insertRow now rec] } := by
  obtain ⟨dia, tab⟩ := d
  by_cases hdup : (tab.any (fun r0 => r0.id = rec.ID)) = true
  case pos =>
    exfalso
    cases dia <;>
      simp [SQLStore.InsertCreated, execInsert, SQLStore.insertRow, hdup] at hok
  case neg =>
    constructor
    · intro r hr hid
      exact hdup (List.any_eq_true.mpr ⟨r, hr, by simp [hid]⟩)
    · cases dia <;>
        simp [SQLStore.InsertCreated, execInsert, SQLStore.insertRow, hdup] at hok <;>
        exact hok.symm

/-- `MarkEnqueued` on a live database always succeeds (in either dialect)
and applies the enqueue update to every row with the given id. -/
theorem markEnqueued_some (d : DBState) (now : Time) (taskID queue : String)
    (t : Time) :
    SQLStore.MarkEnqueued (some d) now taskID queue t =
      .ok { d with
              table := d.table.map
                (fun r => if r.id = taskID then SQLStore.enqueueUpd queue t now r else r) } := by
  obtain ⟨dia, tab⟩ := d
  cases dia <;> simp [SQLStore.MarkEnqueued, execUpdate]

/-- `MarkStarted` on a live database always succeeds and applies the start
update to every row with the given id. -/
theorem markStarted_some (d : DBState) (now : Time) (taskID : String)
    (t : Time) :
    SQLStore.MarkStarted (some d) now taskID t =
      .ok { d with
              table := d.table.map
                (fun r => if r.id = taskID then SQLStore.startUpd t now r else r) } := by
  obtain ⟨dia, tab⟩ := d
  cases dia <;> simp [SQLStore.MarkStarted, execUpdate]

/-- `MarkCompleted` on a live database always succeeds and applies the
completion update to every row with the given id. -/
theorem markCompleted_some (d : DBState) (now : Time) (taskID : String)
    (resultJSON : Option String) (t : Time) :
    SQLStore.MarkCompleted (some d) now taskID resultJSON t =
      .ok { d with
              table := d.table.map
                (fun r => if r.id = taskID then SQLStore.completeUpd resultJSON t now r else r) } := by
  obtain ⟨dia, tab⟩ := d
  cases dia <;> simp [SQLStore.MarkCompleted, execUpdate]

/-- `MarkFailed` on a live database always succeeds and applies the failure
update to every row with the given id. -/
theorem markFailed_some (d : DBState) (now : Time) (taskID errorMsg : String)
    (t : Time) :
    SQLStore.MarkFailed (some d) now taskID errorMsg t =
      .ok { d with
              table := d.table.map
                (fun r => if r.id = taskID then SQLStore.failUpd errorMsg t now r else r) } := by
  obtain ⟨dia, tab⟩ := d
  cases dia <;> simp [SQLStore.MarkFailed, execUpdate]

/-- `GetByID` on a live database whose table has a row with the given id
returns the scanned record of the first such row, in either dialect. -/
theorem getByID_some_found {d : DBState} {taskID : String} {r : Row}
    (hfind : d.table.find? (fun r0 => r0.id = taskID) = some r) :
    SQLStore.GetByID (some d) taskID = .ok (SQLStore.rowToRecord r) := by
  obtain ⟨dia, tab⟩ := d
  cases dia <;> simp [SQLStore.GetByID, execQueryRow, hfind]

/-! ## Claim theorems: SQLStore -/

/-- C5: for every SQLStore operation (InsertCreated, MarkEnqueued,
MarkStarted, MarkCompleted, MarkFailed, GetByID) with a non-nil database
handle, the statement is first attempted with positional `?` placeholders;
if that attempt fails for any reason it is attempted exactly once more
with numbered `$n` placeholders, and the result surfaced to the caller is
the result of the second attempt (success of the second attempt yields
overall success). -/
theorem C5_dual_dialect_retry (d : DBState) (now t : Time) (rec : TaskRecord)
    (taskID queue errorMsg : String) (resultJSON : Option String) :
    SQLStore.InsertCreated (some d) now rec =
      attemptTwice (execInsert d .qmark (SQLStore.insertRow now rec))
        (execInsert d .dollar (SQLStore.insertRow now rec)) ∧
    SQLStore.MarkEnqueued (some d) now taskID queue t =
      attemptTwice (execUpdate d .qmark taskID (SQLStore.enqueueUpd queue t now))
        (execUpdate d .dollar taskID (SQLStore.enqueueUpd queue t now)) ∧
    SQLStore.MarkStarted (some d) now taskID t =
      attemptTwice (execUpdate d .qmark taskID (SQLStore.startUpd t now))
        (execUpdate d .dollar taskID (SQLStore.startUpd t now)) ∧
    SQLStore.MarkCompleted (some d) now taskID resultJSON t =
      attemptTwice (execUpdate d .qmark taskID (SQLStore.completeUpd resultJSON t now))
        (execUpdate d .dollar taskID (SQLStore.completeUpd resultJSON t now)) ∧
    SQLStore.MarkFailed (some d) now taskID errorMsg t =
      attemptTwice (execUpdate d .qmark taskID (SQLStore.failUpd errorMsg t now))
        (execUpdate d .dollar taskID (SQLStore.failUpd errorMsg t now)) ∧
    SQLStore.GetByID (some d) taskID =
      attemptTwice (Except.map SQLStore.rowToRecord (execQueryRow d .qmark taskID))
        (Except.map SQLStore.rowToRecord (execQueryRow d .dollar taskID)) := by
  refine ⟨?_, ?_, ?_, ?_, ?_, ?_⟩
  · cases h : execInsert d .qmark (SQLStore.insertRow now rec) <;>
      simp [SQLStore.InsertCreated, attemptTwice, h]
  · cases h : execUpdate d .qmark taskID (SQLStore.enqueueUpd queue t now) <;>
      simp [SQLStore.MarkEnqueued, attemptTwice, h]
  · cases h : execUpdate d .qmark taskID (SQLStore.startUpd t now) <;>
      simp [SQLStore.MarkStarted, attemptTwice, h]
  · cases h : execUpdate d .qmark taskID (SQLStore.completeUpd resultJSON t now) <;>
      simp [SQLStore.MarkCompleted, attemptTwice, h]
  · cases h : execUpdate d .qmark taskID (SQLStore.failUpd errorMsg t now) <;>
      simp [SQLStore.MarkFailed, attemptTwice, h]
  · cases h1 : execQueryRow d .qmark taskID with
    | ok r => simp [SQLStore.GetByID, attemptTwice, Except.map, h1]
    | error e =>
      cases h2 : execQueryRow d .dollar taskID <;>
        simp [SQLStore.GetByID, attemptTwice, Except.map, h1, h2]

/-- C10: for a SQLStore constructed with a nil database handle, every one
of the six operations returns a non-nil error without any database access
(there is no database state to touch), and GetByID yields no record (the
`Except.error` carries no `TaskRecord`). -/
theorem C10_nil_db_all_ops_error (now t : Time) (rec : TaskRecord)
    (taskID queue errorMsg : String) (resultJSON : Option String) :
    SQLStore.InsertCreated none now rec = .error "nil db" ∧
    SQLStore.MarkEnqueued none now taskID queue t = .error "nil db" ∧
    SQLStore.MarkStarted none now taskID t = .error "nil db" ∧
    SQLStore.MarkCompleted none now taskID resultJSON t = .error "nil db" ∧
    SQLStore.MarkFailed none now taskID errorMsg t = .error "nil db" ∧
    SQLStore.GetByID none taskID = .error "nil db" :=
  ⟨rfl, rfl, rfl, rfl, rfl, rfl⟩

/-- C6: for every id with no existing row, each Mark* operation executed
against a reachable database returns success (and leaves the table
unchanged): an update matching zero rows is not distinguished from a
successful update and is never reported as an error. -/
theorem C6_mark_zero_rows_is_success (d : DBState) (now t : Time)
    (taskID queue errorMsg : String) (resultJSON : Option String)
    (hno : ∀ r ∈ d.table, ¬ r.id = taskID) :
    SQLStore.MarkEnqueued (some d) now taskID queue t = .ok d ∧
    SQLStore.MarkStarted (some d) now taskID t = .ok d ∧
    SQLStore.MarkCompleted (some d) now taskID resultJSON t = .ok d ∧
    SQLStore.MarkFailed (some d) now taskID errorMsg t = .ok d := by
  refine ⟨?_, ?_, ?_, ?_⟩
  · rw [markEnqueued_some, map_update_of_no_match hno]
  · rw [markStarted_some, map_update_of_no_match hno]
  · rw [markCompleted_some, map_update_of_no_match hno]
  · rw [markFailed_some, map_update_of_no_match hno]

/-- Witness for C6 at a concrete database (dialect `?`, one row with id
`"other"`) and the absent id `"missing"`. -/
theorem C6_mark_zero_rows_is_success_witness :
    (∀ r ∈ [{ id := "other", typ := "ty", queue := "q0", payload_json := "p",
              status := "created", error_msg := none, result_json := none,
              created_at := 1, updated_at := none, enqueued_at := none,
              started_at := none, finished_at := none : Row }], ¬ r.id = "missing") ∧
    SQLStore.MarkEnqueued
      (some ⟨Dialect.qmark,
             [{ id := "other", typ := "ty", queue := "q0", payload_json := "p",
                status := "created", error_msg := none, result_json := none,
                created_at := 1, updated_at := none, enqueued_at := none,
                started_at := none, finished_at := none }]⟩) 3 "missing" "q" 2 =
      .ok ⟨Dialect.qmark,
           [{ id := "other", typ := "ty", queue := "q0", payload_json := "p",
              status := "created", error_msg := none, result_json := none,
              created_at := 1, updated_at := none, enqueued_at := none,
              started_at := none, finished_at := none }]⟩ :=
  ⟨by decide,
   (C6_mark_zero_rows_is_success
      ⟨Dialect.qmark,
       [{ id := "other", typ := "ty", queue := "q0", payload_json := "p",
          status := "created", error_msg := none, result_json := none,
          created_at := 1, updated_at := none, enqueued_at := none,
          started_at := none, finished_at := none }]⟩
      3 2 "missing" "q" "boom" none (by decide)).1⟩

/-- C9: `InsertCreated` ignores the `Status` and `CreatedAt` fields of the
input record: the result is unchanged when they are replaced by arbitrary
values, and the persisted row carries the literal status `"created"` and
the clock value at insertion. -/
theorem C9_insert_ignores_rec_status_and_createdAt (d d2 : DBState) (now : Time)
    (rec : TaskRecord) (s : Status) (c : Time)
    (hok : SQLStore.InsertCreated (some d) now rec = .ok d2) :
    SQLStore.InsertCreated (some d) now
        { rec with status := s, CreatedAt := c } = .ok d2 ∧
    d2.table = d.table ++ [SQLStore.insertRow now rec] ∧
    (SQLStore.insertRow now rec).status = "created" ∧
    (SQLStore.insertRow now rec).created_at = now := by
  obtain ⟨-, hd2⟩ := insertCreated_some_ok hok
  refine ⟨hok, ?_, rfl, rfl⟩
  rw [hd2]

/-- Witness for C9 at a concrete empty database and a record whose input
status and creation time are junk values. -/
theorem C9_insert_ignores_rec_status_and_createdAt_witness :
    SQLStore.InsertCreated (some ⟨Dialect.qmark, []⟩) 7
        { ID := "t1", Typ := "email", Queue := "q", PayloadJSON := "p",
          status := "bogus", ErrorMsg := none, ResultJSON := none,
          CreatedAt := 99, EnqueuedAt := 0, StartedAt := none,
          FinishedAt := none } =
      .ok ⟨Dialect.qmark,
           [SQLStore.insertRow 7
              { ID := "t1", Typ := "email", Queue := "q", PayloadJSON := "p",
                status := "bogus", ErrorMsg := none, ResultJSON := none,
                CreatedAt := 99, EnqueuedAt := 0, StartedAt := none,
                FinishedAt := none }]⟩ ∧
    (⟨Dialect.qmark,
      [SQLStore.insertRow 7
         { ID := "t1", Typ := "email", Queue := "q", PayloadJSON := "p",
           status := "bogus", ErrorMsg := none, ResultJSON := none,
           CreatedAt := 99, EnqueuedAt := 0, StartedAt := none,
           FinishedAt := none }]⟩ : DBState).table =
      ([] : List Row) ++
        [SQLStore.insertRow 7
           { ID := "t1", Typ := "email", Queue := "q", PayloadJSON := "p",
             status := "bogus", ErrorMsg := none, ResultJSON := none,
             CreatedAt := 99, EnqueuedAt := 0, StartedAt := none,
             FinishedAt := none }] :=
  ⟨rfl,
   (C9_insert_ignores_rec_status_and_createdAt ⟨Dialect.qmark, []⟩
      ⟨Dialect.qmark,
       [SQLStore.insertRow 7
          { ID := "t1", Typ := "email", Queue := "q", PayloadJSON := "p",
            status := "bogus", ErrorMsg := none, ResultJSON := none,
            CreatedAt := 99, EnqueuedAt := 0, StartedAt := none,
            FinishedAt := none }]⟩ 7
      { ID := "t1", Typ := "email", Queue := "q", PayloadJSON := "p",
        status := "bogus", ErrorMsg := none, ResultJSON := none,
        CreatedAt := 99, EnqueuedAt := 0, StartedAt := none,
        FinishedAt := none }
      "junk" 5 (by rfl)).2.1⟩

/-- C4: for all valid TaskRecord values `rec`, a successful
`InsertCreated rec` followed by `GetByID rec.ID` returns a record equal to
`rec` in id, type, queue, and payload, with status `created`. -/
theorem C4_insert_then_getByID (d d2 : DBState) (now : Time) (rec : TaskRecord)
    (hok : SQLStore.InsertCreated (some d) now rec = .ok d2) :
    ∃ r, SQLStore.GetByID (some d2) rec.ID = .ok r ∧
      r.ID = rec.ID ∧ r.Typ = rec.Typ ∧ r.Queue = rec.Queue ∧
      r.PayloadJSON = rec.PayloadJSON ∧ r.status = StatusCreated := by
  obtain ⟨hall, hd2⟩ := insertCreated_some_ok hok
  subst hd2
  have hfind :
      (d.table ++ [SQLStore.insertRow now rec]).find?
        (fun r0 => r0.id = rec.ID) = some (SQLStore.insertRow now rec) := by
    rw [find_append_no_match _ d.table
          (fun x hx => by simpa using hall x hx) [SQLStore.insertRow now rec]]
    exact List.find?_cons_of_pos _ (by simp [SQLStore.insertRow])
  exact ⟨SQLStore.rowToRecord (SQLStore.insertRow now rec),
         getByID_some_found hfind, rfl, rfl, rfl, rfl, rfl⟩

/-- Witness for C4 at a concrete Postgres-dialect database (so the insert
and the lookup both go through the `$n` retry path). -/
theorem C4_insert_then_getByID_witness :
    SQLStore.InsertCreated (some ⟨Dialect.dollar, []⟩) 4
        { ID := "t9", Typ := "ty", Queue := "qq", PayloadJSON := "pp",
          status := "created", ErrorMsg := none, ResultJSON := none,
          CreatedAt := 4, EnqueuedAt := 0, StartedAt := none,
          FinishedAt := none } =
      .ok ⟨Dialect.dollar,
           [SQLStore.insertRow 4
              { ID := "t9", Typ := "ty", Queue := "qq", PayloadJSON := "pp",
                status := "created", ErrorMsg := none, ResultJSON := none,
                CreatedAt := 4, EnqueuedAt := 0, StartedAt := none,
                FinishedAt := none }]⟩ ∧
    (∃ r, SQLStore.GetByID
        (some ⟨Dialect.dollar,
               [SQLStore.insertRow 4
                  { ID := "t9", Typ := "ty", Queue := "qq", PayloadJSON := "pp",
                    status := "created", ErrorMsg := none, ResultJSON := none,
                    CreatedAt := 4, EnqueuedAt := 0, StartedAt := none,
                    FinishedAt := none }]⟩) "t9" = .ok r ∧
      r.ID = "t9" ∧ r.Typ = "ty" ∧ r.Queue = "qq" ∧
      r.PayloadJSON = "pp" ∧ r.status = StatusCreated) :=
  ⟨rfl,
   C4_insert_then_getByID ⟨Dialect.dollar, []⟩
     ⟨Dialect.dollar,
      [SQLStore.insertRow 4
         { ID := "t9", Typ := "ty", Queue := "qq", PayloadJSON := "pp",
           status := "created", ErrorMsg := none, ResultJSON := none,
           CreatedAt := 4, EnqueuedAt := 0, StartedAt := none,
           FinishedAt := none }]⟩ 4
     { ID := "t9", Typ := "ty", Queue := "qq", PayloadJSON := "pp",
       status := "created", ErrorMsg := none, ResultJSON := none,
       CreatedAt := 4, EnqueuedAt := 0, StartedAt := none,
       FinishedAt := none }
     (by rfl)⟩

/-- C8: for an existing record id, a successful `MarkEnqueued id q t` sets
the status of the record to `created`, its queue to `q` and its
`enqueued_at` to `t`, so a subsequent `GetByID id` returns a record with
`EnqueuedAt = t`, `Queue = q` and status `created`. -/
theorem C8_markEnqueued_then_getByID (d d2 : DBState) (now t : Time)
    (taskID q : String) (r0 : Row)
    (hfind : d.table.find? (fun r => r.id = taskID) = some r0)
    (hok : SQLStore.MarkEnqueued (some d) now taskID q t = .ok d2) :
    ∃ r, SQLStore.GetByID (some d2) taskID = .ok r ∧
      r.Queue = q ∧ r.EnqueuedAt = t ∧ r.status = StatusCreated := by
  rw [markEnqueued_some] at hok
  have hd2 := (Except.ok.inj hok).symm
  subst hd2
  have hfind2 := find_map_update taskID (SQLStore.enqueueUpd q t now)
      (fun r => rfl) d.table r0 hfind
  exact ⟨SQLStore.rowToRecord (SQLStore.enqueueUpd q t now r0),
         getByID_some_found hfind2, rfl, rfl, rfl⟩

/-- Witness for C8 at a concrete one-row database. -/
theorem C8_markEnqueued_then_getByID_witness :
    ([{ id := "t5", typ := "ty", queue := "q0", payload_json := "p",
        status := "created", error_msg := none, result_json := none,
        created_at := 1, updated_at := none, enqueued_at := none,
        started_at := none, finished_at := none : Row }].find?
          (fun r => r.id = "t5") =
      some { id := "t5", typ := "ty", queue := "q0", payload_json := "p",
             status := "created", error_msg := none, result_json := none,
             created_at := 1, updated_at := none, enqueued_at := none,
             started_at := none, finished_at := none }) ∧
    SQLStore.MarkEnqueued
        (some ⟨Dialect.qmark,
               [{ id := "t5", typ := "ty", queue := "q0", payload_json := "p",
                  status := "created", error_msg := none, result_json := none,
                  created_at := 1, updated_at := none, enqueued_at := none,
                  started_at := none, finished_at := none }]⟩) 9 "t5" "qZ" 8 =
      .ok ⟨Dialect.qmark,
           [SQLStore.enqueueUpd "qZ" 8 9
              { id := "t5", typ := "ty", queue := "q0", payload_json := "p",
                status := "created", error_msg := none, result_json := none,
                created_at := 1, updated_at := none, enqueued_at := none,
                started_at := none, finished_at := none }]⟩ ∧
    (∃ r, SQLStore.GetByID
        (some ⟨Dialect.qmark,
               [SQLStore.enqueueUpd "qZ" 8 9
                  { id := "t5", typ := "ty", queue := "q0", payload_json := "p",
                    status := "created", error_msg := none, result_json := none,
                    created_at := 1, updated_at := none, enqueued_at := none,
                    started_at := none, finished_at := none }]⟩) "t5" = .ok r ∧
      r.Queue = "qZ" ∧ r.EnqueuedAt = 8 ∧ r.status = StatusCreated) :=
  ⟨rfl, rfl,
   C8_markEnqueued_then_getByID
     ⟨Dialect.qmark,
      [{ id := "t5", typ := "ty", queue := "q0", payload_json := "p",
         status := "created", error_msg := none, result_json := none,
         created_at := 1, updated_at := none, enqueued_at := none,
         started_at := none, finished_at := none }]⟩
     ⟨Dialect.qmark,
      [SQLStore.enqueueUpd "qZ" 8 9
         { id := "t5", typ := "ty", queue := "q0", payload_json := "p",
           status := "created", error_msg := none, result_json := none,
           created_at := 1, updated_at := none, enqueued_at := none,
           started_at := none, finished_at := none }]⟩
     9 8 "t5" "qZ"
     { id := "t5", typ := "ty", queue := "q0", payload_json := "p",
       status := "created", error_msg := none, result_json := none,
       created_at := 1, updated_at := none, enqueued_at := none,
       started_at := none, finished_at := none }
     (by rfl) (by rfl)⟩

/-! ## Claim theorems: Client and Processor -/

/-- The queue composed by asynq for an option slice ending in a `Queue`
option is that final queue name, whatever precedes it. -/
theorem composeQueue_append_queue (opts : List AsynqOption) (q : String) :
    composeQueue (opts ++ [AsynqOption.queue q]) = q := by
  simp [composeQueue, List.foldl_append]

/-- Evaluation of the first (info, err) component of `Client.Enqueue`:
nil-client guard, then marshal, then submission under the queue composed
from the caller options with the configured queue appended last. -/
theorem enqueue_fst {σ : Type} (c : Client σ) (b : Broker) (st : σ) (now : Time)
    (taskType : String) (marshal : Except String String)
    (options : List AsynqOption) :
    (Client.Enqueue c b st now taskType marshal options).1 =
      if c.client = false then .error "nil asynq client"
      else
        match marshal with
        | .error e => .error e
        | .ok payloadBytes =>
          match b.submit taskType payloadBytes
              (composeQueue (options ++ [.queue c.queue])) with
          | .error e => .error e
          | .ok tid =>
            .ok { ID := tid,
                  Queue := composeQueue (options ++ [.queue c.queue]) } := by
  by_cases hc : c.client = false
  · simp [Client.Enqueue, hc]
  · cases marshal with
    | error e => simp [Client.Enqueue, hc]
    | ok pb =>
      cases hsub : b.submit taskType pb (composeQueue (options ++ [.queue c.queue])) with
      | error e => simp [Client.Enqueue, hc, hsub]
      | ok tid =>
        cases hst : c.store with
        | none => simp [Client.Enqueue, hc, hsub, hst]
        | some s2 => simp [Client.Enqueue, hc, hsub, hst]

/-- C1 (counterexample): with configured queue `"default"` and the caller
passing the queue-selecting option `Queue "high"`, the task is submitted
under `"default"` — the queue of the caller is NOT used (the broker oracle
echoes the queue it received into the assigned id, so the submission
visibly went to `"default"`). -/
theorem C1_counterexample_caller_queue_ignored :
    (Client.Enqueue (⟨true, none, "default"⟩ : Client Unit)
        ⟨fun _ _ q => .ok (String.append "id-" q)⟩ () 0
        "email" (.ok "p") [AsynqOption.queue "high"]).1 =
      .ok { ID := "id-default", Queue := "default" } ∧
    ("default" : String) ≠ "high" :=
  ⟨rfl, by decide⟩

/-- C1 (amended): on every successful `Client.Enqueue` the task is
submitted under the configured queue of the Client, whether or not the
caller passed queue-selecting options: the client appends its own
`Queue(c.queue)` option after the caller options and asynq gives the last
queue option precedence. -/
theorem C1_amended_configured_queue_always_wins {σ : Type} (c : Client σ)
    (b : Broker) (st : σ) (now : Time) (taskType : String)
    (marshal : Except String String) (options : List AsynqOption)
    (info : TaskInfo) (st2 : σ)
    (h : Client.Enqueue c b st now taskType marshal options = (.ok info, st2)) :
    info.Queue = c.queue := by
  have h1 := congrArg Prod.fst h
  rw [enqueue_fst] at h1
  by_cases hc : c.client = false
  · rw [if_pos hc] at h1
    exact absurd h1 (by simp)
  · rw [if_neg hc] at h1
    cases marshal with
    | error e =>
      dsimp only at h1
      exact absurd h1 (by simp)
    | ok pb =>
      dsimp only at h1
      cases hsub : b.submit taskType pb (composeQueue (options ++ [.queue c.queue])) with
      | error e =>
        rw [hsub] at h1
        exact absurd h1 (by simp)
      | ok tid =>
        rw [hsub] at h1
        have h2 := Except.ok.inj h1
        rw [← h2]
        exact composeQueue_append_queue options c.queue

/-- Witness for the amended C1: configured queue `"crit"`, caller passes
`Queue "high"`, the submission goes to `"crit"`. -/
theorem C1_amended_configured_queue_always_wins_witness :
    Client.Enqueue (⟨true, none, "crit"⟩ : Client Unit)
        ⟨fun _ _ q => .ok (String.append "id-" q)⟩ () 0
        "email" (.ok "p") [AsynqOption.queue "high"] =
      (.ok { ID := "id-crit", Queue := "crit" }, ()) ∧
    ({ ID := "id-crit", Queue := "crit" } : TaskInfo).Queue = "crit" :=
  ⟨rfl,
   C1_amended_configured_queue_always_wins (⟨true, none, "crit"⟩ : Client Unit)
     ⟨fun _ _ q => .ok (String.append "id-" q)⟩ () 0 "email" (.ok "p")
     [AsynqOption.queue "high"] { ID := "id-crit", Queue := "crit" } () rfl⟩

/-- C2: for a Client whose Store errors on every write, `Enqueue` with a
serializable payload and a successful submission still returns the
successful submission result with a nil error; `InsertCreated` is invoked
on the synthesized record and then `MarkEnqueued` on the assigned id and
queue, and the errors of both are never propagated (the returned pair does
not depend on them). -/
theorem C2_store_errors_never_surface {σ : Type} (s : StoreModel σ) (b : Broker)
    (st : σ) (now : Time) (cq taskType payloadBytes tid : String)
    (options : List AsynqOption)
    (hIns : ∀ (st0 : σ) (rec : TaskRecord), ∃ e, (s.insertCreated st0 rec).2 = .error e)
    (hEnq : ∀ (st0 : σ) (id q0 : String) (t0 : Time),
        ∃ e, (s.markEnqueued st0 id q0 t0).2 = .error e)
    (hsub : b.submit taskType payloadBytes
        (composeQueue (options ++ [.queue cq])) = .ok tid) :
    Client.Enqueue ⟨true, some s, cq⟩ b st now taskType (.ok payloadBytes) options =
      (.ok { ID := tid, Queue := composeQueue (options ++ [.queue cq]) },
       (s.markEnqueued
          (s.insertCreated st
             { ID := tid, Typ := taskType,
               Queue := composeQueue (options ++ [.queue cq]),
               PayloadJSON := payloadBytes, status := StatusCreated,
               ErrorMsg := none, ResultJSON := none,
               CreatedAt := now, EnqueuedAt := now,
               StartedAt := none, FinishedAt := none }).1
          tid (composeQueue (options ++ [.queue cq])) now).1) := by
  simp [Client.Enqueue, hsub]

/-- Witness for C2: an always-erroring Store over state `Nat` (counting
writes into the state so the two invocations are visible: insert adds 1,
mark-enqueued adds 10); Enqueue still returns the successful info. -/
theorem C2_store_errors_never_surface_witness :
    (∀ (st0 : Nat) (rec : TaskRecord),
      ∃ e, ((⟨fun st _ => (st + 1, .error "w"),
              fun st _ _ _ => (st + 10, .error "w"),
              fun st _ _ => (st, .error "w"),
              fun st _ _ _ => (st, .error "w"),
              fun st _ _ _ => (st, .error "w")⟩ :
                StoreModel Nat).insertCreated st0 rec).2 = .error e) ∧
    (∀ (st0 : Nat) (id q0 : String) (t0 : Time),
      ∃ e, ((⟨fun st _ => (st + 1, .error "w"),
              fun st _ _ _ => (st + 10, .error "w"),
              fun st _ _ => (st, .error "w"),
              fun st _ _ _ => (st, .error "w"),
              fun st _ _ _ => (st, .error "w")⟩ :
                StoreModel Nat).markEnqueued st0 id q0 t0).2 = .error e) ∧
    Client.Enqueue
        (⟨true,
          some ⟨fun st _ => (st + 1, .error "w"),
                fun st _ _ _ => (st + 10, .error "w"),
                fun st _ _ => (st, .error "w"),
                fun st _ _ _ => (st, .error "w"),
                fun st _ _ _ => (st, .error "w")⟩,
          "default"⟩ : Client Nat)
        ⟨fun _ _ _ => .ok "t1"⟩ 0 5 "email" (.ok "p") [] =
      (.ok { ID := "t1", Queue := "default" }, 11) :=
  ⟨fun _ _ => ⟨"w", rfl⟩,
   fun _ _ _ _ => ⟨"w", rfl⟩,
   C2_store_errors_never_surface
     ⟨fun st _ => (st + 1, .error "w"),
      fun st _ _ _ => (st + 10, .error "w"),
      fun st _ _ => (st, .error "w"),
      fun st _ _ _ => (st, .error "w"),
      fun st _ _ _ => (st, .error "w")⟩
     ⟨fun _ _ _ => .ok "t1"⟩ 0 5 "default" "email" "p" "t1" []
     (fun _ _ => ⟨"w", rfl⟩)
     (fun _ _ _ _ => ⟨"w", rfl⟩)
     rfl⟩

/-- C7: on a Client with a live asynq handle, (1) a serialization failure
is returned as-is with no store write (state unchanged) and no submission
(the result is the same for every broker); (2) a submission failure is
returned as-is with no store write (state unchanged). -/
theorem C7_failures_surface_without_writes {σ : Type} (c : Client σ) (st : σ)
    (now : Time) (taskType : String) (options : List AsynqOption)
    (hc : c.client = true) :
    (∀ (b : Broker) (em : String),
        Client.Enqueue c b st now taskType (.error em) options = (.error em, st)) ∧
    (∀ (b : Broker) (payloadBytes e : String),
        b.submit taskType payloadBytes
            (composeQueue (options ++ [.queue c.queue])) = .error e →
        Client.Enqueue c b st now taskType (.ok payloadBytes) options =
          (.error e, st)) := by
  constructor
  · intro b em
    simp [Client.Enqueue, hc]
  · intro b pb e hsub
    simp [Client.Enqueue, hc, hsub]

/-- Witness for C7 over a store-carrying client with state `Nat`: both
failure modes leave the state at its initial value 0. -/
theorem C7_failures_surface_without_writes_witness :
    ((⟨true,
       some ⟨fun st _ => (st + 1, .error "w"),
             fun st _ _ _ => (st + 10, .error "w"),
             fun st _ _ => (st, .error "w"),
             fun st _ _ _ => (st, .error "w"),
             fun st _ _ _ => (st, .error "w")⟩,
       "default"⟩ : Client Nat).client = true) ∧
    Client.Enqueue
        (⟨true,
          some ⟨fun st _ => (st + 1, .error "w"),
                fun st _ _ _ => (st + 10, .error "w"),
                fun st _ _ => (st, .error "w"),
                fun st _ _ _ => (st, .error "w"),
                fun st _ _ _ => (st, .error "w")⟩,
          "default"⟩ : Client Nat)
        ⟨fun _ _ _ => .error "redis down"⟩ 0 5 "email"
        (.error "unsupported type") [] =
      (.error "unsupported type", 0) ∧
    Client.Enqueue
        (⟨true,
          some ⟨fun st _ => (st + 1, .error "w"),
                fun st _ _ _ => (st + 10, .error "w"),
                fun st _ _ => (st, .error "w"),
                fun st _ _ _ => (st, .error "w"),
                fun st _ _ _ => (st, .error "w")⟩,
          "default"⟩ : Client Nat)
        ⟨fun _ _ _ => .error "redis down"⟩ 0 5 "email" (.ok "p") [] =
      (.error "redis down", 0) :=
  ⟨rfl,
   (C7_failures_surface_without_writes
      (⟨true,
        some ⟨fun st _ => (st + 1, .error "w"),
              fun st _ _ _ => (st + 10, .error "w"),
              fun st _ _ => (st, .error "w"),
              fun st _ _ _ => (st, .error "w"),
              fun st _ _ _ => (st, .error "w")⟩,
        "default"⟩ : Client Nat) 0 5 "email" [] rfl).1
     ⟨fun _ _ _ => .error "redis down"⟩ "unsupported type",
   (C7_failures_surface_without_writes
      (⟨true,
        some ⟨fun st _ => (st + 1, .error "w"),
              fun st _ _ _ => (st + 10, .error "w"),
              fun st _ _ => (st, .error "w"),
              fun st _ _ _ => (st, .error "w"),
              fun st _ _ _ => (st, .error "w")⟩,
        "default"⟩ : Client Nat) 0 5 "email" [] rfl).2
     ⟨fun _ _ _ => .error "redis down"⟩ "p" "redis down" rfl⟩

/-- C3: for a dispatched task with an extractable id and a non-nil store,
the lifecycle middleware (1) returns the outcome of the handler run on the
post-MarkStarted state, unmodified; (2) ends in the state obtained by
MarkFailed with the error message when the handler errored, else
MarkCompleted with no result payload, applied to the state of the handler
run after MarkStarted; and (3) discards the error component of all three
Store calls: any store differing only in those error components yields the
identical result. -/
theorem C3_lifecycle_middleware_tracks_and_passes_through {σ : Type}
    (s : StoreModel σ) (id : String) (now1 now2 : Time)
    (handler : σ → σ × Option String) (st : σ) :
    (lifecycleMiddleware (some s) (some id) now1 now2 handler st).2 =
      (handler ((s.markStarted st id now1).1)).2 ∧
    (lifecycleMiddleware (some s) (some id) now1 now2 handler st).1 =
      (match (handler ((s.markStarted st id now1).1)).2 with
       | some msg =>
         (s.markFailed (handler ((s.markStarted st id now1).1)).1 id msg now2).1
       | none =>
         (s.markCompleted (handler ((s.markStarted st id now1).1)).1 id none now2).1) ∧
    (∀ (s2 : StoreModel σ),
      (∀ (st0 : σ) (id0 : String) (t0 : Time),
          (s2.markStarted st0 id0 t0).1 = (s.markStarted st0 id0 t0).1) →
      (∀ (st0 : σ) (id0 m : String) (t0 : Time),
          (s2.markFailed st0 id0 m t0).1 = (s.markFailed st0 id0 m t0).1) →
      (∀ (st0 : σ) (id0 : String) (r : Option String) (t0 : Time),
          (s2.markCompleted st0 id0 r t0).1 = (s.markCompleted st0 id0 r t0).1) →
      lifecycleMiddleware (some s2) (some id) now1 now2 handler st =
        lifecycleMiddleware (some s) (some id) now1 now2 handler st) := by
  refine ⟨rfl, rfl, ?_⟩
  intro s2 h1 h2 h3
  unfold lifecycleMiddleware
  dsimp only
  rw [h1]
  cases (handler ((s.markStarted st id now1).1)).2 with
  | none => dsimp only; rw [h3]
  | some msg => dsimp only; rw [h2]

/-- Witness for C3: a counting store over `Nat`, a handler failing with
`"boom"`, and a second store differing only in error strings. -/
theorem C3_lifecycle_middleware_tracks_and_passes_through_witness :
    (lifecycleMiddleware
        (some (⟨fun st _ => (st, .error "e"),
               fun st _ _ _ => (st, .error "e"),
               fun st _ _ => (st + 1, .error "e"),
               fun st _ _ _ => (st + 50, .error "e"),
               fun st _ _ _ => (st + 7, .error "e")⟩ : StoreModel Nat))
        (some "t1") 0 0 (fun st => (st + 100, some "boom")) 1).2 = some "boom" ∧
    lifecycleMiddleware
        (some (⟨fun st _ => (st, .ok ()),
               fun st _ _ _ => (st, .ok ()),
               fun st _ _ => (st + 1, .ok ()),
               fun st _ _ _ => (st + 50, .ok ()),
               fun st _ _ _ => (st + 7, .ok ())⟩ : StoreModel Nat))
        (some "t1") 0 0 (fun st => (st + 100, some "boom")) 1 =
      lifecycleMiddleware
        (some (⟨fun st _ => (st, .error "e"),
               fun st _ _ _ => (st, .error "e"),
               fun st _ _ => (st + 1, .error "e"),
               fun st _ _ _ => (st + 50, .error "e"),
               fun st _ _ _ => (st + 7, .error "e")⟩ : StoreModel Nat))
        (some "t1") 0 0 (fun st => (st + 100, some "boom")) 1 :=
  ⟨by
    rw [(C3_lifecycle_middleware_tracks_and_passes_through
          (⟨fun st _ => (st, .error "e"),
            fun st _ _ _ => (st, .error "e"),
            fun st _ _ => (st + 1, .error "e"),
            fun st _ _ _ => (st + 50, .error "e"),
            fun st _ _ _ => (st + 7, .error "e")⟩ : StoreModel Nat)
          "t1" 0 0 (fun st => (st + 100, some "boom")) 1).1],
   (C3_lifecycle_middleware_tracks_and_passes_through
      (⟨fun st _ => (st, .error "e"),
        fun st _ _ _ => (st, .error "e"),
        fun st _ _ => (st + 1, .error "e"),
        fun st _ _ _ => (st + 50, .error "e"),
        fun st _ _ _ => (st + 7, .error "e")⟩ : StoreModel Nat)
      "t1" 0 0 (fun st => (st + 100, some "boom")) 1).2.2
     ⟨fun st _ => (st, .ok ()),
      fun st _ _ _ => (st, .ok ()),
      fun st _ _ => (st + 1, .ok ()),
      fun st _ _ _ => (st + 50, .ok ()),
      fun st _ _ _ => (st + 7, .ok ())⟩
     (fun _ _ _ => rfl) (fun _ _ _ _ => rfl) (fun _ _ _ _ => rfl)⟩

end Asyncx
